import Mathlib

/-!
Verification of the git-utils command-execution and branch-creation core
(`src/git_utils.rs`) via a shallow embedding.

Modelling conventions:
* Machine bytes are `Nat` values (< 256 in any real stream); byte streams are
  `List Nat`.
* `std::process::Output` becomes the structure `Output` with the exit-status
  success flag and the two captured streams.
* Fallible Rust code returning `io::Result<T>` becomes `RResult T`, with a
  third constructor `crash` modelling a Rust panic (`unwrap` / `expect`),
  since several code paths abort instead of returning an error value.
* The external world is an environment `Env` mapping the argument list of a
  `git` invocation to either a captured `Output` or a spawn failure.
* The messages passed to the injected logger's `info` method are collected in
  a list, in order of emission.
-/

/-- Rust `ErrorKind` (the subset relevant here; the code only ever constructs
`InvalidData`, the other constructors witness that distinct kinds exist). -/
inductive ErrorKind where
  | invalidData
  | notFound
  | permissionDenied
  | other
  deriving DecidableEq, Repr

/-- Rust `io::Error`: a kind plus a message (`Error::new(kind, msg)`). -/
structure IOError where
  kind : ErrorKind
  msg : String
  deriving DecidableEq, Repr

/-- Outcome of a Rust computation of type `io::Result α`, with `crash`
modelling a panic (`unwrap` / `expect` failure), which aborts instead of
returning a value. -/
inductive RResult (α : Type) where
  | ok (v : α)
  | err (e : IOError)
  | crash (msg : String)
  deriving DecidableEq, Repr

/-- Monadic sequencing of `RResult`, the meaning of Rust's `?` operator
(errors and panics both cut the continuation short). -/
def RResult.bind {α β : Type} : RResult α → (α → RResult β) → RResult β
  | .ok v, f => f v
  | .err e, _ => .err e
  | .crash m, _ => .crash m

/-- Whether the computation returned a success value. -/
def RResult.isOk {α : Type} : RResult α → Bool
  | .ok _ => true
  | _ => false

/-- Whether the computation returned an error value (a value the caller
receives through the `Result` channel; a crash is not one). -/
def RResult.isErr {α : Type} : RResult α → Bool
  | .err _ => true
  | _ => false

/-- The kind of the returned error, when the outcome is an error. -/
def RResult.errKind {α : Type} : RResult α → Option ErrorKind
  | .err e => some e.kind
  | _ => none

/-- Rust `std::process::Output`: `status.success()`, stdout bytes, stderr
bytes. -/
structure Output where
  status : Bool
  stdout : List Nat
  stderr : List Nat
  deriving DecidableEq, Repr

/-- A UTF-8 continuation byte (`0x80..=0xBF`). -/
def isContByte (b : Nat) : Bool := 0x80 ≤ b && b < 0xC0

/-- Strict UTF-8 decoding of a byte list into Unicode scalar values, exactly
the validity notion of Rust's `String::from_utf8`: rejects overlong forms,
surrogates and scalar values above `0x10FFFF`. `none` means decoding fails. -/
def utf8Decode : List Nat → Option (List Nat)
  | [] => some []
  | b :: l =>
    if b < 0x80 then
      (utf8Decode l).map fun cs => b :: cs
    else if b < 0xC2 then none
    else if b < 0xE0 then
      match l with
      | b1 :: l1 =>
        if isContByte b1 then
          (utf8Decode l1).map fun cs => ((b - 0xC0) * 0x40 + (b1 - 0x80)) :: cs
        else none
      | [] => none
    else if b < 0xF0 then
      match l with
      | b1 :: b2 :: l2 =>
        if isContByte b1 && isContByte b2 then
          let cp := (b - 0xE0) * 0x1000 + (b1 - 0x80) * 0x40 + (b2 - 0x80)
          if cp < 0x800 || (0xD800 ≤ cp && cp < 0xE000) then none
          else (utf8Decode l2).map fun cs => cp :: cs
        else none
      | _ => none
    else if b < 0xF5 then
      match l with
      | b1 :: b2 :: b3 :: l3 =>
        if isContByte b1 && isContByte b2 && isContByte b3 then
          let cp := (b - 0xF0) * 0x40000 + (b1 - 0x80) * 0x1000
            + (b2 - 0x80) * 0x40 + (b3 - 0x80)
          if cp < 0x10000 || 0x110000 ≤ cp then none
          else (utf8Decode l3).map fun cs => cp :: cs
        else none
      | _ => none
    else none

/-- `String::from_utf8` as a partial function into Lean strings: decode the
scalar values and build the string. -/
def utf8DecodeStr (l : List Nat) : Option String :=
  (utf8Decode l).map fun cs => String.mk (cs.map Char.ofNat)

/-- The textual rendering of a `FromUtf8Error` (`e.to_string()`); the exact
index arithmetic of Rust's message is abstracted to a fixed description of
the decoding failure. -/
def fromUtf8ErrDesc (bytes : List Nat) : String :=
  "invalid utf-8 sequence of " ++ toString bytes.length ++ " bytes"

/-- Panic message of `Result::unwrap` on an `Err` value, as raised by
`String::from_utf8(self.stdout).unwrap()` on undecodable stdout. -/
def resultUnwrapMsg : String := "called Result::unwrap() on an Err value"

/-- Panic message of `Option::unwrap` on `None`, as raised by
`project_path.to_str().unwrap()` on a non-UTF-8 path. -/
def optionUnwrapMsg : String := "called Option::unwrap() on a None value"

/-- `const ERR_MSG` of `git_utils.rs`, the `expect` message used when the
`git` process cannot be spawned at all. -/
def ERR_MSG : String := "Error executing git command"

/-- `OutputHandler::handle_git_cmd for Output` (git_utils.rs lines 26-41):
failure iff the status is unsuccessful AND stderr is non-empty, the error
carrying the decoded stderr (or a description of its decoding failure) under
`ErrorKind::InvalidData`; otherwise the decoded stdout, where an undecodable
stdout panics through `unwrap`. -/
def handle_git_cmd (o : Output) : RResult String :=
  if !o.status && !o.stderr.isEmpty then
    let err_msg :=
      match utf8DecodeStr o.stderr with
      | some msg => msg
      | none => fromUtf8ErrDesc o.stderr
    .err ⟨.invalidData, err_msg⟩
  else
    match utf8DecodeStr o.stdout with
    | some s => .ok s
    | none => .crash resultUnwrapMsg

/-- The message carried by the failure classification: the stderr bytes
decoded as text, or, when decoding fails, the description of that failure
(the `match String::from_utf8(self.stderr)` expression). -/
def stderrDecodedMsg (serr : List Nat) : String :=
  match utf8DecodeStr serr with
  | some msg => msg
  | none => fromUtf8ErrDesc serr

/-- Outcome of `Command::output()`: either a captured `Output`, or a spawn
failure (binary missing, permissions) carrying the OS error text. -/
inductive Spawned where
  | out (o : Output)
  | spawnErr (msg : String)
  deriving DecidableEq, Repr

/-- The external world: what running `git` with a given argument list yields.
Each subprocess is a fresh invocation, so the outcome depends only on the
arguments (the working-copy path is one of them via `-C`). -/
def Env : Type := List String → Spawned

/-- `Command::new("git").args(..).output().expect(ERR_MSG)`: a spawn failure
panics with `ERR_MSG` (it is not returned as an error value). -/
def runGit (env : Env) (args : List String) : RResult Output :=
  match env args with
  | .out o => .ok o
  | .spawnErr _ => .crash ERR_MSG

/-- Argument list of the validation invocation in `Repository::open`. -/
def revParseArgs (p : String) : List String := ["-C", p, "rev-parse"]

/-- Argument list of the mutating invocation in `Repository::new_branch`. -/
def checkoutArgs (p b src : String) : List String :=
  ["-C", p, "checkout", "-b", b, src]

/-- Argument list of the query invocation in `Repository::current_branch`. -/
def currentBranchArgs (p : String) : List String :=
  ["-C", p, "rev-parse", "--abbrev-ref", "HEAD"]

/-- Argument list of the query invocation in `Repository::branch_exists`. -/
def showRefArgs (p b : String) : List String :=
  ["-C", p, "show-ref", "refs/heads/" ++ b]

/-- An argument list denotes the mutating (branch-creating) invocation iff its
subcommand — the element after `-C <path>` — is `checkout`. -/
def isMutating : List String → Bool
  | _ :: _ :: "checkout" :: _ => true
  | _ => false

/-- `struct Repository`: a bound working copy. The path is kept as the raw
bytes of the `PathBuf` (Unix paths need not be valid UTF-8). -/
structure Repository where
  project_path : List Nat
  deriving DecidableEq, Repr

/-- `project_path.to_str().unwrap()`: `PathBuf::to_str` succeeds iff the bytes
are valid UTF-8, and the `unwrap` panics otherwise. -/
def pathToStr (p : List Nat) : RResult String :=
  match utf8DecodeStr p with
  | some s => .ok s
  | none => .crash optionUnwrapMsg

/-- `Repository::open` (git_utils.rs lines 73-81): run `git -C <path>
rev-parse` as validation, discard its output, and wrap the path on success.
Returns the issued invocations alongside the result. -/
def Repository.openRepo (env : Env) (project_path : List Nat) :
    List (List String) × RResult Repository :=
  match utf8DecodeStr project_path with
  | none => ([], .crash optionUnwrapMsg)
  | some p =>
    ([revParseArgs p],
      (runGit env (revParseArgs p)).bind fun o =>
        (handle_git_cmd o).bind fun _ => .ok ⟨project_path⟩)

/-- `Repository::new_branch` (git_utils.rs lines 83-89): run `git -C <path>
checkout -b <b_name> <current_branch>` and interpret the output. -/
def Repository.new_branch (env : Env) (self : Repository)
    (b_name current_branch : String) : List (List String) × RResult String :=
  match utf8DecodeStr self.project_path with
  | none => ([], .crash optionUnwrapMsg)
  | some p =>
    ([checkoutArgs p b_name current_branch],
      (runGit env (checkoutArgs p b_name current_branch)).bind handle_git_cmd)

/-- `Repository::current_branch` (git_utils.rs lines 91-97): run `git -C
<path> rev-parse --abbrev-ref HEAD` and interpret the output (no trimming
happens here). -/
def Repository.current_branch (env : Env) (self : Repository) :
    List (List String) × RResult String :=
  match utf8DecodeStr self.project_path with
  | none => ([], .crash optionUnwrapMsg)
  | some p =>
    ([currentBranchArgs p],
      (runGit env (currentBranchArgs p)).bind handle_git_cmd)

/-- `Repository::branch_exists` (git_utils.rs lines 99-113): run `git -C
<path> show-ref refs/heads/<b_name>`; a successful invocation with non-empty
output is turned into the already-exists `InvalidData` error, a successful
invocation with empty output is returned as-is. -/
def Repository.branch_exists (env : Env) (self : Repository) (b_name : String) :
    List (List String) × RResult String :=
  match utf8DecodeStr self.project_path with
  | none => ([], .crash optionUnwrapMsg)
  | some p =>
    ([showRefArgs p b_name],
      (runGit env (showRefArgs p b_name)).bind fun o =>
        (handle_git_cmd o).bind fun res =>
          if !res.isEmpty then
            .err ⟨.invalidData, "Branch " ++ b_name ++ " already exists!"⟩
          else
            .ok res)

/-- Rust `char::is_whitespace`: the Unicode `White_Space` property. -/
def rustIsWhitespace (c : Char) : Bool :=
  [0x09, 0x0A, 0x0B, 0x0C, 0x0D, 0x20, 0x85, 0xA0, 0x1680].contains c.toNat
  || (0x2000 ≤ c.toNat && c.toNat ≤ 0x200A)
  || [0x2028, 0x2029, 0x202F, 0x205F, 0x3000].contains c.toNat

/-- Rust `str::trim`: strip leading and trailing Unicode whitespace. -/
def rustTrim (s : String) : String :=
  String.mk
    (((s.data.dropWhile rustIsWhitespace).reverse.dropWhile
      rustIsWhitespace).reverse)

/-- Modelled from the spec: the `Logger` component (`crate::log`) is not
among the sources; per §6 it is an injected collaborator that receives
human-readable progress strings through `info`. We keep its constructor
arguments and record the messages passed to `info` as the emitted log. -/
structure Logger where
  debug : Bool
  name : String

/-- `struct Git`: the facade, holding the logger and the repository handle. -/
structure Git where
  log : Logger
  repository : Repository

/-- First progress message of `Git::new_branch`. -/
def checkingMsg (b_name : String) : String :=
  "Checking if branch " ++ b_name ++ " already exists..."

/-- Second progress message of `Git::new_branch` (note: the untrimmed
current-branch text, and a trailing space, exactly as the format string). -/
def creatingMsg (b_name current_branch : String) : String :=
  "Creating new git branch " ++ b_name ++ " from " ++ current_branch ++ " "

/-- Third progress message of `Git::new_branch` (again the untrimmed
current-branch text). -/
def successMsg (b_name current_branch : String) : String :=
  "Branch " ++ b_name ++ " successfully created from " ++ current_branch

/-- `Git::new_branch` (git_utils.rs lines 54-69): log the existence check,
check existence, read the current branch, log the creation, create the branch
from the trimmed current branch, log success. Returns the workflow result,
the issued invocations in order, and the emitted log messages in order. -/
def Git.new_branch (env : Env) (self : Git) (b_name : String) :
    RResult Unit × List (List String) × List String :=
  let log1 := checkingMsg b_name
  let step1 := Repository.branch_exists env self.repository b_name
  match step1.2 with
  | .err e => (.err e, step1.1, [log1])
  | .crash m => (.crash m, step1.1, [log1])
  | .ok _ =>
    let step2 := Repository.current_branch env self.repository
    match step2.2 with
    | .err e => (.err e, step1.1 ++ step2.1, [log1])
    | .crash m => (.crash m, step1.1 ++ step2.1, [log1])
    | .ok current_branch =>
      let log2 := creatingMsg b_name current_branch
      let step3 := Repository.new_branch env self.repository b_name
        (rustTrim current_branch)
      match step3.2 with
      | .err e => (.err e, step1.1 ++ step2.1 ++ step3.1, [log1, log2])
      | .crash m => (.crash m, step1.1 ++ step2.1 ++ step3.1, [log1, log2])
      | .ok _ =>
        (.ok (), step1.1 ++ step2.1 ++ step3.1,
          [log1, log2, successMsg b_name current_branch])

/-- A working copy at path `.` (byte 46). -/
def repoDot : Repository := ⟨[46]⟩

/-- Environment of the happy-path scenario: the existence check finds nothing
(`show-ref` exits unsuccessfully with silent stderr), the current branch is
`main` (with the tool's trailing newline), and the checkout succeeds. -/
def envHappy : Env := fun args =>
  if args = showRefArgs "." "feature/x" then .out ⟨false, [], []⟩
  else if args = currentBranchArgs "." then
    .out ⟨true, [109, 97, 105, 110, 10], []⟩
  else if args = checkoutArgs "." "feature/x" "main" then .out ⟨true, [], []⟩
  else .spawnErr "unexpected invocation"

/-- Environment where branch `feature/x` already exists: `show-ref` succeeds
and prints the ref line (here just `x\n`). -/
def envExists : Env := fun args =>
  if args = showRefArgs "." "feature/x" then .out ⟨true, [120, 10], []⟩
  else if args = currentBranchArgs "." then
    .out ⟨true, [109, 97, 105, 110, 10], []⟩
  else .spawnErr "unexpected invocation"

/-- Environment where the `git` binary cannot be spawned at all. -/
def envNoGit : Env := fun _ => .spawnErr "No such file or directory"

/-- The facade instance used in concrete runs. -/
def gitDot : Git := ⟨⟨false, "git-utils"⟩, repoDot⟩

/-! ### Helper lemmas shared by the claim theorems -/

theorem handle_git_cmd_failure (o : Output) (h1 : o.status = false)
    (h2 : o.stderr ≠ []) :
    handle_git_cmd o = .err ⟨.invalidData, stderrDecodedMsg o.stderr⟩ := by
  obtain ⟨st, sout, serr⟩ := o
  subst h1
  have he : serr.isEmpty = false := by
    cases serr with
    | nil => exact absurd rfl h2
    | cons a l => rfl
  simp [handle_git_cmd, he, stderrDecodedMsg]

theorem handle_git_cmd_benign (o : Output) (h : o.status = true ∨ o.stderr = []) :
    handle_git_cmd o =
      match utf8DecodeStr o.stdout with
      | some s => .ok s
      | none => .crash resultUnwrapMsg := by
  obtain ⟨st, sout, serr⟩ := o
  have hc : (!st && !serr.isEmpty) = false := by
    rcases h with h | h
    · subst h; rfl
    · subst h; simp
  simp [handle_git_cmd, hc]

/-! ### C1 — output interpretation -/

/-- C1, counterexample: at the concrete outcome (unsuccessful status, empty
stderr, stdout the lone byte `0xC3`, which is not valid UTF-8), the claim
puts the outcome in the "other" case and demands a success carrying the
decoded stdout; the interpreter instead panics (`unwrap` on the failed
decode), so the outcome is not classified as a success. -/
theorem C1_counterexample :
    handle_git_cmd ⟨false, [0xC3], []⟩ = RResult.crash resultUnwrapMsg ∧
    RResult.isOk (handle_git_cmd ⟨false, [0xC3], []⟩) = false := by
  constructor <;> decide

/-- C1, amended: the interpreter classifies an outcome as a failure iff the
exit status is unsuccessful and stderr is non-empty, the error carrying
stderr decoded as text or, when that decoding fails, a description of the
failure; in every other case, *provided the stdout bytes decode as text*,
the outcome is a success carrying the decoded stdout — and when stdout does
not decode there, the interpreter panics instead of producing a
classification. -/
theorem C1_classification_amended (o : Output) :
    (o.status = false → o.stderr ≠ [] →
      handle_git_cmd o = .err ⟨.invalidData, stderrDecodedMsg o.stderr⟩) ∧
    (o.status = true ∨ o.stderr = [] →
      (∀ s, utf8DecodeStr o.stdout = some s → handle_git_cmd o = .ok s) ∧
      (utf8DecodeStr o.stdout = none →
        handle_git_cmd o = .crash resultUnwrapMsg)) := by
  refine ⟨fun h1 h2 => handle_git_cmd_failure o h1 h2, fun h => ⟨?_, ?_⟩⟩
  · intro s hs
    rw [handle_git_cmd_benign o h, hs]
  · intro hs
    rw [handle_git_cmd_benign o h, hs]

/-- C1, witness: both branches of the amended classification at concrete
outcomes — a failing status with stderr `"e"` is classified as the
`InvalidData` failure carrying `"e"`, and a successful status with stdout
`"hi"` is classified as the success `"hi"`. -/
theorem C1_classification_witness :
    handle_git_cmd ⟨false, [], [101]⟩ = .err ⟨.invalidData, "e"⟩ ∧
    handle_git_cmd ⟨true, [104, 105], []⟩ = .ok "hi" := by
  constructor
  · have h := (C1_classification_amended ⟨false, [], [101]⟩).1 rfl (by decide)
    exact h
  · have h := ((C1_classification_amended ⟨true, [104, 105], []⟩).2
      (Or.inl rfl)).1 "hi" (by decide)
    exact h

/-! ### C5 — totality of the interpreter over stdout bytes -/

/-- C5, counterexample: the concrete outcome with successful status and
stdout the lone byte `0xFF` is classified neither as a success nor as a
failure — the interpreter crashes (panics through `unwrap`), so
interpretation is not total over arbitrary stdout byte sequences. -/
theorem C5_counterexample :
    handle_git_cmd ⟨true, [0xFF], []⟩ = RResult.crash resultUnwrapMsg ∧
    RResult.isOk (handle_git_cmd ⟨true, [0xFF], []⟩) = false ∧
    RResult.isErr (handle_git_cmd ⟨true, [0xFF], []⟩) = false := by
  refine ⟨by decide, by decide, by decide⟩

/-- C5, amended: for every outcome on the success side of the classification
(successful status, or empty stderr) whose stdout bytes are not valid text,
the interpreter does not fold the decoding failure into a classified result:
it panics through `unwrap` with the fixed unwrap message. A stderr decoding
failure on the failure side, by contrast, is folded into the error value. -/
theorem C5_stdout_decode_crash (o : Output)
    (hside : o.status = true ∨ o.stderr = [])
    (hdec : utf8DecodeStr o.stdout = none) :
    handle_git_cmd o = .crash resultUnwrapMsg ∧
    RResult.isErr (handle_git_cmd o) = false := by
  rw [handle_git_cmd_benign o hside, hdec]
  exact ⟨rfl, rfl⟩

/-- C5, witness: the amended statement applied at the concrete outcome with
successful status and stdout `[0xFF]`. -/
theorem C5_stdout_decode_crash_witness :
    handle_git_cmd ⟨true, [0xFF], []⟩ = .crash resultUnwrapMsg ∧
    RResult.isErr (handle_git_cmd ⟨true, [0xFF], []⟩) = false := by
  exact C5_stdout_decode_crash ⟨true, [0xFF], []⟩ (Or.inl rfl) (by decide)

/-! ### C2 — classification of the existence check -/

/-- C2: for every captured outcome of the existence-check invocation, the
check reports the branch as existing (the already-exists error ending the
workflow) exactly when the invocation is classified as a success with
non-empty output; it reports the branch as not existing (the `Ok` that lets
the workflow proceed) exactly when the invocation succeeds with empty
output; and a failure classification of the invocation propagates as that
error. -/
theorem C2_branch_exists_classification (env : Env) (repo : Repository)
    (b p : String) (o : Output)
    (hp : utf8DecodeStr repo.project_path = some p)
    (ho : env (showRefArgs p b) = Spawned.out o) :
    (∀ s, handle_git_cmd o = .ok s → s ≠ "" →
      (Repository.branch_exists env repo b).2 =
        .err ⟨.invalidData, "Branch " ++ b ++ " already exists!"⟩) ∧
    (handle_git_cmd o = .ok "" →
      (Repository.branch_exists env repo b).2 = .ok "") ∧
    (∀ e, handle_git_cmd o = .err e →
      (Repository.branch_exists env repo b).2 = .err e) := by
  refine ⟨?_, ?_, ?_⟩
  · intro s hs hne
    have hemp : s.isEmpty = false := by
      cases hh : s.isEmpty
      · rfl
      · exact absurd ((String.isEmpty_iff s).mp hh) hne
    simp [Repository.branch_exists, hp, runGit, ho, RResult.bind, hs, hemp]
  · intro hs
    have hemp : ("" : String).isEmpty = true := by decide
    simp [Repository.branch_exists, hp, runGit, ho, RResult.bind, hs, hemp]
  · intro e he
    simp [Repository.branch_exists, hp, runGit, ho, RResult.bind, he]

/-- C2, witness: under `envExists` (where `show-ref` succeeds and prints a
ref line) the check reports the branch as existing, and under `envHappy`
(where `show-ref` exits unsuccessfully with silent stderr, classified as a
benign success with empty output) it reports the branch as not existing. -/
theorem C2_branch_exists_witness :
    (Repository.branch_exists envExists repoDot "feature/x").2 =
      .err ⟨.invalidData, "Branch feature/x already exists!"⟩ ∧
    (Repository.branch_exists envHappy repoDot "feature/x").2 = .ok "" := by
  constructor
  · exact (C2_branch_exists_classification envExists repoDot "feature/x" "."
      ⟨true, [120, 10], []⟩ (by decide) rfl).1 "x\n" (by decide) (by decide)
  · exact (C2_branch_exists_classification envHappy repoDot "feature/x" "."
      ⟨false, [], []⟩ (by decide) rfl).2.1 (by decide)

/-! ### C9 — non-UTF-8 project path panics every operation -/

/-- C9: when the bound project path is not valid UTF-8, each of the four
repository operations panics on the `unwrap` of the path conversion instead
of returning an error value. -/
theorem C9_path_unwrap_panic (env : Env) (p : List Nat) (b cur : String)
    (h : utf8DecodeStr p = none) :
    (Repository.openRepo env p).2 = .crash optionUnwrapMsg ∧
    (Repository.current_branch env ⟨p⟩).2 = .crash optionUnwrapMsg ∧
    (Repository.branch_exists env ⟨p⟩ b).2 = .crash optionUnwrapMsg ∧
    (Repository.new_branch env ⟨p⟩ b cur).2 = .crash optionUnwrapMsg := by
  refine ⟨?_, ?_, ?_, ?_⟩ <;>
    simp [Repository.openRepo, Repository.current_branch,
      Repository.branch_exists, Repository.new_branch, h]

/-- C9, witness: the byte `0xFF` is not valid UTF-8, and all four operations
panic on it (under the environment with no `git` binary, which is never
consulted). -/
theorem C9_path_unwrap_panic_witness :
    (Repository.openRepo envNoGit [0xFF]).2 = .crash optionUnwrapMsg ∧
    (Repository.current_branch envNoGit ⟨[0xFF]⟩).2 = .crash optionUnwrapMsg ∧
    (Repository.branch_exists envNoGit ⟨[0xFF]⟩ "b").2 =
      .crash optionUnwrapMsg ∧
    (Repository.new_branch envNoGit ⟨[0xFF]⟩ "b" "main").2 =
      .crash optionUnwrapMsg := by
  exact C9_path_unwrap_panic envNoGit [0xFF] "b" "main" (by decide)

/-! ### C10 — a successful existence check carries the empty string -/

/-- C10: whenever `Repository::branch_exists` returns a success value, that
value is the empty string — non-empty query output always becomes the
already-exists error — and the facade workflow's success result is the unit
value, carrying no textual payload from the tool. -/
theorem C10_branch_exists_ok_empty (env : Env) (repo : Repository)
    (b s : String) (h : (Repository.branch_exists env repo b).2 = .ok s) :
    s = "" := by
  unfold Repository.branch_exists at h
  split at h
  · simp at h
  · simp only [runGit] at h
    split at h
    · simp only [RResult.bind] at h
      rcases hh : handle_git_cmd _ with v | e | m <;> rw [hh] at h <;>
        simp only [RResult.bind] at h
      · split at h
        · simp at h
        · rename_i hemp
          obtain rfl : v = s := by simpa using h
          have hv : v.isEmpty = true := by
            cases hh : v.isEmpty
            · rw [hh] at hemp; exact absurd rfl hemp
            · rfl
          exact (String.isEmpty_iff v).mp hv
      · simp at h
      · simp at h
    · simp [RResult.bind] at h

/-- C10, witness: under `envHappy` the existence check succeeds, and its
success value is indeed the empty string. -/
theorem C10_branch_exists_ok_empty_witness :
    (Repository.branch_exists envHappy repoDot "feature/x").2 = .ok "" ∧
    ("" : String) = "" :=
  ⟨by decide, C10_branch_exists_ok_empty envHappy repoDot "feature/x" ""
    (by decide)⟩

/-! ### Trace helpers: query invocations are never the mutating one -/

theorem branch_exists_trace_not_mutating (env : Env) (repo : Repository)
    (b : String) :
    ∀ c ∈ (Repository.branch_exists env repo b).1, isMutating c = false := by
  unfold Repository.branch_exists
  split
  · intro c hc; simp at hc
  · intro c hc
    simp only [List.mem_singleton] at hc
    subst hc
    rfl

theorem current_branch_trace_not_mutating (env : Env) (repo : Repository) :
    ∀ c ∈ (Repository.current_branch env repo).1, isMutating c = false := by
  unfold Repository.current_branch
  split
  · intro c hc; simp at hc
  · intro c hc
    simp only [List.mem_singleton] at hc
    subst hc
    rfl

/-! ### C3 — the mutating invocation is guarded by both checks -/

/-- C3: in every run of the branch-creation workflow, a mutating (checkout)
invocation appears in the issued trace only if the existence check returned a
success (branch absent) and the current-branch query returned a success; if
the existence check returns an error (in particular the already-exists
error), or the existence check succeeds and the current-branch query returns
an error, the workflow returns exactly that error and the trace contains no
mutating invocation. -/
theorem C3_mutation_guarded (env : Env) (git : Git) (b : String) :
    (∀ c ∈ (Git.new_branch env git b).2.1, isMutating c = true →
      (∃ s, (Repository.branch_exists env git.repository b).2 = .ok s) ∧
      (∃ cur, (Repository.current_branch env git.repository).2 = .ok cur)) ∧
    (∀ e, (Repository.branch_exists env git.repository b).2 = .err e →
      (Git.new_branch env git b).1 = .err e ∧
      ∀ c ∈ (Git.new_branch env git b).2.1, isMutating c = false) ∧
    (∀ s e, (Repository.branch_exists env git.repository b).2 = .ok s →
      (Repository.current_branch env git.repository).2 = .err e →
      (Git.new_branch env git b).1 = .err e ∧
      ∀ c ∈ (Git.new_branch env git b).2.1, isMutating c = false) := by
  have t1 := branch_exists_trace_not_mutating env git.repository b
  have t2 := current_branch_trace_not_mutating env git.repository
  rcases h1 : (Repository.branch_exists env git.repository b).2 with s1 | e1 | m1
  · rcases h2 : (Repository.current_branch env git.repository).2 with s2 | e2 | m2
    · refine ⟨fun c hc hmut => ⟨⟨s1, rfl⟩, ⟨s2, rfl⟩⟩, ?_, ?_⟩
      · intro e he; simp at he
      · intro s e hs he; simp at he
    · refine ⟨?_, ?_, ?_⟩
      · intro c hc hmut
        have hc' : c ∈ (Repository.branch_exists env git.repository b).1 ++
            (Repository.current_branch env git.repository).1 := by
          simpa [Git.new_branch, h1, h2] using hc
        rcases List.mem_append.mp hc' with h | h
        · rw [t1 c h] at hmut; cases hmut
        · rw [t2 c h] at hmut; cases hmut
      · intro e he; simp at he
      · intro s e hs he
        obtain rfl : e2 = e := by injection he
        constructor
        · simp [Git.new_branch, h1, h2]
        · intro c hc
          have hc' : c ∈ (Repository.branch_exists env git.repository b).1 ++
              (Repository.current_branch env git.repository).1 := by
            simpa [Git.new_branch, h1, h2] using hc
          rcases List.mem_append.mp hc' with h | h
          · exact t1 c h
          · exact t2 c h
    · refine ⟨?_, ?_, ?_⟩
      · intro c hc hmut
        have hc' : c ∈ (Repository.branch_exists env git.repository b).1 ++
            (Repository.current_branch env git.repository).1 := by
          simpa [Git.new_branch, h1, h2] using hc
        rcases List.mem_append.mp hc' with h | h
        · rw [t1 c h] at hmut; cases hmut
        · rw [t2 c h] at hmut; cases hmut
      · intro e he; simp at he
      · intro s e hs he; simp at he
  · refine ⟨?_, ?_, ?_⟩
    · intro c hc hmut
      have hc' : c ∈ (Repository.branch_exists env git.repository b).1 := by
        simpa [Git.new_branch, h1] using hc
      rw [t1 c hc'] at hmut; cases hmut
    · intro e he
      obtain rfl : e1 = e := by injection he
      constructor
      · simp [Git.new_branch, h1]
      · intro c hc
        have hc' : c ∈ (Repository.branch_exists env git.repository b).1 := by
          simpa [Git.new_branch, h1] using hc
        exact t1 c hc'
    · intro s e hs he; simp at hs
  · refine ⟨?_, ?_, ?_⟩
    · intro c hc hmut
      have hc' : c ∈ (Repository.branch_exists env git.repository b).1 := by
        simpa [Git.new_branch, h1] using hc
      rw [t1 c hc'] at hmut; cases hmut
    · intro e he; simp at he
    · intro s e hs he; simp at hs

/-- C3, witness: under the environment where `feature/x` already exists, the
workflow returns the already-exists error and issues no mutating
invocation. -/
theorem C3_mutation_guarded_witness :
    (Git.new_branch envExists gitDot "feature/x").1 =
      .err ⟨.invalidData, "Branch feature/x already exists!"⟩ := by
  exact ((C3_mutation_guarded envExists gitDot "feature/x").2.1
    ⟨.invalidData, "Branch feature/x already exists!"⟩ (by decide)).1

/-! ### C8 — progress messages -/

/-- C8: on a successful run exactly three progress messages are emitted in
order — checking existence (naming the new branch), creating the new branch
from the current branch (naming both), and the success note (naming both) —
and when the existence check fails (in particular with the already-exists
error) only the first message has been emitted. -/
theorem C8_progress_messages (env : Env) (git : Git) (b : String) :
    (∀ s cur v,
      (Repository.branch_exists env git.repository b).2 = .ok s →
      (Repository.current_branch env git.repository).2 = .ok cur →
      (Repository.new_branch env git.repository b (rustTrim cur)).2 = .ok v →
      (Git.new_branch env git b).2.2 =
        [checkingMsg b, creatingMsg b cur, successMsg b cur]) ∧
    (∀ e, (Repository.branch_exists env git.repository b).2 = .err e →
      (Git.new_branch env git b).2.2 = [checkingMsg b]) := by
  constructor
  · intro s cur v h1 h2 h3
    simp [Git.new_branch, h1, h2, h3]
  · intro e h1
    simp [Git.new_branch, h1]

/-- C8, witness: the happy-path environment emits exactly the three messages
(the second and third carrying the untrimmed current-branch text), and the
already-exists environment emits only the first. -/
theorem C8_progress_messages_witness :
    (Git.new_branch envHappy gitDot "feature/x").2.2 =
      [checkingMsg "feature/x", creatingMsg "feature/x" "main\n",
        successMsg "feature/x" "main\n"] ∧
    (Git.new_branch envExists gitDot "feature/x").2.2 =
      [checkingMsg "feature/x"] := by
  constructor
  · exact (C8_progress_messages envHappy gitDot "feature/x").1 "" "main\n" ""
      (by decide) (by decide) (by decide)
  · exact (C8_progress_messages envExists gitDot "feature/x").2
      ⟨.invalidData, "Branch feature/x already exists!"⟩ (by decide)

/-! ### C7 — the current-branch query does not trim -/

/-- C7, counterexample: when the query invocation for the current branch
succeeds with stdout `"main\n"`, `current_branch` returns `"main\n"` — not
the trimmed short name `"main"` the claim promises. -/
theorem C7_counterexample :
    (Repository.current_branch envHappy repoDot).2 = .ok "main\n" ∧
    rustTrim "main\n" = "main" ∧ ("main\n" : String) ≠ "main" := by
  refine ⟨by decide, by decide, by decide⟩

/-- C7, amended: when its query invocation succeeds, `current_branch`
returns the decoded stdout unmodified (whitespace and trailing newline
included); the trimming the spec describes is applied by the workflow
(`Git::new_branch`), which passes the trimmed value as the source-branch
argument of the mutating invocation. -/
theorem C7_current_branch_untrimmed (env : Env) (repo : Repository)
    (p : String) (o : Output) (s : String)
    (hp : utf8DecodeStr repo.project_path = some p)
    (ho : env (currentBranchArgs p) = Spawned.out o)
    (hs : handle_git_cmd o = .ok s) :
    (Repository.current_branch env repo).2 = .ok s ∧
    (∀ (git : Git) (b s1 : String), git.repository = repo →
      (Repository.branch_exists env repo b).2 = .ok s1 →
      checkoutArgs p b (rustTrim s) ∈ (Git.new_branch env git b).2.1) := by
  have hcur : (Repository.current_branch env repo).2 = .ok s := by
    simp [Repository.current_branch, hp, runGit, ho, RResult.bind, hs]
  refine ⟨hcur, ?_⟩
  intro git b s1 hrepo hb
  subst hrepo
  simp only [Git.new_branch, hb, hcur]
  split <;> simp [Repository.new_branch, hp]

/-- C7, amended witness: under the happy-path environment the query returns
the untrimmed `"main\n"`, and the workflow issues the checkout invocation
with the trimmed `"main"` as source. -/
theorem C7_current_branch_untrimmed_witness :
    (Repository.current_branch envHappy repoDot).2 = .ok "main\n" ∧
    checkoutArgs "." "feature/x" "main" ∈
      (Git.new_branch envHappy gitDot "feature/x").2.1 := by
  have h := C7_current_branch_untrimmed envHappy repoDot "."
    ⟨true, [109, 97, 105, 110, 10], []⟩ "main\n" (by decide) rfl (by decide)
  refine ⟨h.1, ?_⟩
  have h2 := h.2 gitDot "feature/x" "" rfl (by decide)
  have ht : rustTrim "main\n" = "main" := by decide
  rw [ht] at h2
  exact h2

/-! ### C4 — the already-exists error is not a distinct kind -/

/-- C4, counterexample: the already-exists failure and a forwarded tool
failure both carry `ErrorKind::InvalidData` — the error kinds are equal, so
the already-exists error is not a distinct kind from tool-execution errors
as the claim states (only the message text differs). -/
theorem C4_counterexample :
    (Repository.branch_exists envExists repoDot "feature/x").2 =
      .err ⟨.invalidData, "Branch feature/x already exists!"⟩ ∧
    handle_git_cmd ⟨false, [], [101]⟩ = .err ⟨.invalidData, "e"⟩ ∧
    RResult.errKind (Repository.branch_exists envExists repoDot "feature/x").2
      = RResult.errKind (handle_git_cmd ⟨false, [], [101]⟩) := by
  refine ⟨by decide, by decide, by decide⟩

/-- C4, amended: when the existence check finds the branch present, the
workflow fails with an error whose human-readable message names the
offending branch (`Branch <b> already exists!`); its kind, however, is
`ErrorKind::InvalidData`, the same kind every classified tool failure
carries, so a caller can distinguish the local policy violation only by the
message text, not by the error kind. -/
theorem C4_already_exists_error (env : Env) (repo : Repository)
    (b p s : String) (o : Output)
    (hp : utf8DecodeStr repo.project_path = some p)
    (ho : env (showRefArgs p b) = Spawned.out o)
    (hs : handle_git_cmd o = .ok s) (hne : s ≠ "") :
    (Repository.branch_exists env repo b).2 =
      .err ⟨.invalidData, "Branch " ++ b ++ " already exists!"⟩ ∧
    (∀ (o1 : Output) (e : IOError), handle_git_cmd o1 = .err e →
      e.kind = .invalidData) := by
  constructor
  · have hemp : s.isEmpty = false := by
      cases hh : s.isEmpty
      · rfl
      · exact absurd ((String.isEmpty_iff s).mp hh) hne
    simp [Repository.branch_exists, hp, runGit, ho, RResult.bind, hs, hemp]
  · intro o1 e he
    unfold handle_git_cmd at he
    split at he
    · cases he; rfl
    · split at he
      · simp at he
      · simp at he

/-- C4, witness: under the already-exists environment the error value is the
`InvalidData` error naming `feature/x`, and a concrete forwarded tool
failure also has kind `InvalidData`. -/
theorem C4_already_exists_error_witness :
    (Repository.branch_exists envExists repoDot "feature/x").2 =
      .err ⟨.invalidData, "Branch feature/x already exists!"⟩ ∧
    (⟨.invalidData, "e"⟩ : IOError).kind = .invalidData := by
  have h := C4_already_exists_error envExists repoDot "feature/x" "." "x\n"
    ⟨true, [120, 10], []⟩ (by decide) rfl (by decide) (by decide)
  exact ⟨h.1, h.2 ⟨false, [], [101]⟩ ⟨.invalidData, "e"⟩ (by decide)⟩

/-! ### C6 — spawn failure panics instead of returning an error value -/

/-- C6, counterexample: when the `git` binary cannot be spawned, an
operation does not surface any error value to the caller — it panics
through `expect` with the fixed message, so no `ExecutionError` value (and
no error value at all) reaches the caller. -/
theorem C6_counterexample :
    (Repository.openRepo envNoGit [46]).2 = RResult.crash ERR_MSG ∧
    RResult.isErr (Repository.openRepo envNoGit [46]).2 = false ∧
    RResult.errKind (Repository.openRepo envNoGit [46]).2 = none := by
  refine ⟨by decide, by decide, by decide⟩

/-- C6, amended: when the external binary cannot be spawned, every operation
panics with the fixed `expect` message `Error executing git command` instead
of returning an error value; the abort is therefore distinguishable from an
`ExternalToolError` result, but not as a distinct error-value kind the
caller receives. -/
theorem C6_spawn_failure_panics (env : Env) (p : List Nat)
    (path b cur m : String) (hp : utf8DecodeStr p = some path) :
    (env (revParseArgs path) = .spawnErr m →
      (Repository.openRepo env p).2 = .crash ERR_MSG) ∧
    (env (currentBranchArgs path) = .spawnErr m →
      (Repository.current_branch env ⟨p⟩).2 = .crash ERR_MSG) ∧
    (env (showRefArgs path b) = .spawnErr m →
      (Repository.branch_exists env ⟨p⟩ b).2 = .crash ERR_MSG) ∧
    (env (checkoutArgs path b cur) = .spawnErr m →
      (Repository.new_branch env ⟨p⟩ b cur).2 = .crash ERR_MSG) := by
  refine ⟨?_, ?_, ?_, ?_⟩ <;> intro h <;>
    simp [Repository.openRepo, Repository.current_branch,
      Repository.branch_exists, Repository.new_branch, hp, runGit, h,
      RResult.bind]

/-- C6, witness: with no `git` binary at all, all four operations on the
path `.` panic with the `expect` message. -/
theorem C6_spawn_failure_panics_witness :
    (Repository.openRepo envNoGit [46]).2 = .crash ERR_MSG ∧
    (Repository.current_branch envNoGit ⟨[46]⟩).2 = .crash ERR_MSG ∧
    (Repository.branch_exists envNoGit ⟨[46]⟩ "b").2 = .crash ERR_MSG ∧
    (Repository.new_branch envNoGit ⟨[46]⟩ "b" "main").2 = .crash ERR_MSG := by
  have h := C6_spawn_failure_panics envNoGit [46] "." "b" "main"
    "No such file or directory" (by decide)
  exact ⟨h.1 rfl, h.2.1 rfl, h.2.2.1 rfl, h.2.2.2 rfl⟩
